import Mathlib

/-!
Verification of the map feature-extraction pipeline of dungeon-lab
(`src/ai-workflows/src/flows/feature_detection.py`).

The pipeline is shallowly embedded: pure Python arithmetic becomes exact
arithmetic on `ℤ`/`ℚ` (Python float division on integer operands is modelled
by rational division; `int(...)` truncation toward zero is modelled by
`pyInt`), `numpy.arctan2` on integer operands is modelled by the real-valued
`arctan2`, and the external OpenCV/PIL primitives (decoding, contour tracing,
Hough line detection, resampling) are abstract function parameters bundled in
`CVPrims` / `FlowEnv`: the repository's own logic — thresholding constants,
area filtering, coordinate bookkeeping, UVTT assembly, the flow's wiring —
is written out from the source.
-/

namespace FeatureDetection

/-- Python `int(...)` applied to a (here: rational-modelled) float:
truncation toward zero. -/
def pyInt (q : ℚ) : ℤ :=
  if 0 ≤ q then ⌊q⌋ else -⌊-q⌋

/-- One of the three OpenAI-supported target resolutions, as listed in
`resize_image` (feature_detection.py lines 71–76).  The `aspect` field is the
literal constant from the source (note `portrait` uses the literal `0.667`,
not `1024/1536`). -/
structure SizeBucket where
  bname : String
  width : ℤ
  height : ℤ
  aspect : ℚ
deriving DecidableEq, Repr

/-- `supported_sizes` from `resize_image` (lines 72–76), in declaration
order. -/
def supported_sizes : List SizeBucket :=
  [⟨"square", 1024, 1024, 1⟩,
   ⟨"landscape", 1536, 1024, 3/2⟩,
   ⟨"portrait", 1024, 1536, 667/1000⟩]

/-- Python `min(xs, key=k)` on a nonempty list `x :: xs`: fold keeping the
current best, replacing it only on a strictly smaller key — so the first
element of a tie wins, exactly Python's behaviour. -/
def minByFirst (key : α → ℚ) (x : α) (xs : List α) : α :=
  xs.foldl (fun best c => if key c < key best then c else best) x

/-- Python `min(xs, key=k)`: `none` on the empty list (Python raises). -/
def pymin (key : α → ℚ) : List α → Option α
  | [] => none
  | x :: xs => some (minByFirst key x xs)

/-- Bucket selection of `resize_image` (lines 79–81):
`min(supported_sizes, key=lambda s: abs(s["aspect"] - original_aspect))`. -/
def best_size (original_aspect : ℚ) : Option SizeBucket :=
  pymin (fun s => |s.aspect - original_aspect|) supported_sizes

/-- `resize_image` (lines 42–98), reduced to its dimension behaviour: from the
original dimensions, the selected bucket and the exact output dimensions
`(bucket.width, bucket.height)` of `image.resize(...)`. -/
def resize_image (original_width original_height : ℤ) :
    Option (SizeBucket × ℤ × ℤ) :=
  (best_size ((original_width : ℚ) / (original_height : ℚ))).map
    (fun b => (b, b.width, b.height))

/-- `detect_contours` (lines 323–361).  The OpenCV primitives
`cv2.contourArea`, `cv2.arcLength` and `cv2.approxPolyDP` are abstract
parameters; the repository's own logic is: skip a contour of area `< 30`,
simplify with epsilon `0.005 * arcLength`, keep the approximation only when
it has at least 3 vertices. -/
def detect_contours {γ : Type} (contourArea : γ → ℚ) (arcLength : γ → ℚ)
    (approxPolyDP : γ → ℚ → List (ℤ × ℤ)) (contours : List γ) :
    List (List (ℤ × ℤ)) :=
  contours.filterMap (fun cnt =>
    if contourArea cnt < 30 then none
    else
      let approx := approxPolyDP cnt ((5/1000 : ℚ) * arcLength cnt)
      if 3 ≤ approx.length then some approx else none)

/-- One raw line from `cv2.HoughLinesP`: endpoints `(x1, y1, x2, y2)`. -/
structure Line4 where
  x1 : ℤ
  y1 : ℤ
  x2 : ℤ
  y2 : ℤ
deriving DecidableEq, Repr

/-- The OpenCV primitives used by `detect_wall_segments` /
`detect_portal_segments`, abstracted: `β` is the decoded-image type, `γ` the
contour type.  `threshold` takes the cut value and max value (the repository
passes `25, 255` for walls and `50, 255` for portals, both
`THRESH_BINARY_INV`); `houghLinesP` is the probabilistic line detector with
its fixed parameters folded in (`rho=1, theta=pi/180, threshold=50,
minLineLength=20, maxLineGap=5`), returning `none` when OpenCV returns
`None`. -/
structure CVPrims (β γ : Type) where
  imdecode : List ℕ → Option β
  cvtColor : β → β
  threshold : ℚ → ℚ → β → β
  findContours : β → List γ
  contourArea : γ → ℚ
  arcLength : γ → ℚ
  approxPolyDP : γ → ℚ → List (ℤ × ℤ)
  houghLinesP : β → Option (List Line4)

/-- `detect_wall_segments` (lines 364–411): decode, grayscale, binary-inverse
threshold at 25, contour extraction via `detect_contours`.  A decode failure
(`cv2.imdecode` returning `None`, so the subsequent attribute access raises)
propagates as an error. -/
def detect_wall_segments {β γ : Type} (cv : CVPrims β γ)
    (image_bytes : List ℕ) : Except String (List (List (ℤ × ℤ))) :=
  match cv.imdecode image_bytes with
  | none => .error "decode"
  | some image =>
    let gray := cv.cvtColor image
    let binary := cv.threshold 25 255 gray
    .ok (detect_contours cv.contourArea cv.arcLength cv.approxPolyDP
      (cv.findContours binary))

/-- `detect_portal_segments` (lines 414–459): decode, grayscale,
binary-inverse threshold at 50, `HoughLinesP`; when the detector returns
`None` the loop is skipped and the empty list is returned successfully. -/
def detect_portal_segments {β γ : Type} (cv : CVPrims β γ)
    (image_bytes : List ℕ) :
    Except String (List ((ℤ × ℤ) × (ℤ × ℤ))) :=
  match cv.imdecode image_bytes with
  | none => .error "decode"
  | some img =>
    let gray := cv.cvtColor img
    let binary := cv.threshold 50 255 gray
    match cv.houghLinesP binary with
    | none => .ok []
    | some lines => .ok (lines.map (fun l => ((l.x1, l.y1), (l.x2, l.y2))))

/-- `numpy.arctan2 y x` on exact (rational) operands, as a real number:
`atan(y/x)` adjusted by quadrant, with numpy's conventions on the axes
(`arctan2 0 0 = 0`). -/
noncomputable def arctan2 (y x : ℚ) : ℝ :=
  if 0 < x then Real.arctan ((y : ℝ) / (x : ℝ))
  else if x < 0 then
    (if 0 ≤ y then Real.arctan ((y : ℝ) / (x : ℝ)) + Real.pi
     else Real.arctan ((y : ℝ) / (x : ℝ)) - Real.pi)
  else if 0 < y then Real.pi / 2
  else if y < 0 then -(Real.pi / 2)
  else 0

/-- A portal object of the UVTT document (lines 691–703). -/
structure Portal where
  position : ℚ × ℚ
  bounds : List (ℤ × ℤ)
  rotation : ℝ
  closed : Bool
  freestanding : Bool

/-- The `resolution` block of the UVTT document (lines 723–733). -/
structure Resolution where
  map_origin : ℚ × ℚ
  map_size : ℚ × ℚ
  pixels_per_grid : ℤ

/-- The `environment` block of the UVTT document (lines 707–710). -/
structure Environment where
  baked_lighting : Bool
  ambient_light : String

/-- The assembled UVTT document (lines 721–740). -/
structure UVTT where
  format : ℚ
  resolution : Resolution
  line_of_sight : List (List (ℤ × ℤ))
  portals : List Portal
  environment : Environment
  image : String
  software : String
  creator : String

/-- `create_uvtt_file` (lines 633–755).  PNG re-encoding plus base64 of the
original image bytes is the abstract parameter `b64encode`.  Wall points are
emitted unchanged ("Use absolute coordinates without dividing by
pixels_per_grid", line 665); each portal gets the midpoint of its endpoints
as position, `arctan2` of the endpoint differences as rotation, the raw
endpoints as bounds, and hardcoded `closed = freestanding = False`. -/
noncomputable def create_uvtt_file (b64encode : List ℕ → String)
    (wall_segments : List (List (ℤ × ℤ)))
    (portal_segments : List ((ℤ × ℤ) × (ℤ × ℤ)))
    (original_image_bytes : List ℕ)
    (original_size : ℤ × ℤ)
    (pixels_per_grid : ℤ) : UVTT :=
  let width_in_squares : ℚ := (original_size.1 : ℚ) / (pixels_per_grid : ℚ)
  let height_in_squares : ℚ := (original_size.2 : ℚ) / (pixels_per_grid : ℚ)
  let line_of_sight := wall_segments.map (fun wall =>
    wall.map (fun point => (point.1, point.2)))
  let portals := portal_segments.map (fun se =>
    let start_x : ℤ := se.1.1
    let start_y : ℤ := se.1.2
    let end_x : ℤ := se.2.1
    let end_y : ℤ := se.2.2
    { position := (((start_x : ℚ) + (end_x : ℚ)) / 2,
                   ((start_y : ℚ) + (end_y : ℚ)) / 2),
      bounds := [(start_x, start_y), (end_x, end_y)],
      rotation := arctan2 ((end_y - start_y : ℤ) : ℚ) ((end_x - start_x : ℤ) : ℚ),
      closed := false,
      freestanding := false : Portal })
  { format := 1,
    resolution :=
      { map_origin := (0, 0),
        map_size := (width_in_squares, height_in_squares),
        pixels_per_grid := pixels_per_grid },
    line_of_sight := line_of_sight,
    portals := portals,
    environment := { baked_lighting := false, ambient_light := "#ffffff" },
    image := b64encode original_image_bytes,
    software := "DungeonLab",
    creator := "DungeonLab Feature Detection" }

/-- Scaling of one point in `draw_features_on_image` (lines 579–581 and
609–610): `(int(p[0] * scale_x), int(p[1] * scale_y))`. -/
def scalePoint (scale_x scale_y : ℚ) (p : ℤ × ℤ) : ℤ × ℤ :=
  (pyInt ((p.1 : ℚ) * scale_x), pyInt ((p.2 : ℚ) * scale_y))

/-- The overlay line width of `draw_features_on_image` (line 569):
`max(2, int(2 * min(scale_x, scale_y)))`. -/
def line_width (scale_x scale_y : ℚ) : ℤ :=
  max 2 (pyInt (2 * min scale_x scale_y))

/-- `wall_colors` (lines 557–567). -/
def wall_colors : List (ℕ × ℕ × ℕ) :=
  [(255, 0, 0), (0, 255, 0), (0, 0, 255), (255, 255, 0), (255, 0, 255),
   (0, 255, 255), (128, 0, 0), (0, 128, 0), (0, 0, 128)]

/-- One `draw.line(...)` call issued by `draw_features_on_image`. -/
structure DrawCmd where
  p1 : ℤ × ℤ
  p2 : ℤ × ℤ
  color : ℕ × ℕ × ℕ
  width : ℤ
deriving DecidableEq, Repr

/-- `draw_features_on_image` (lines 519–630), as the list of line-draw calls
it issues on the original image, in order: for each wall polyline with ≥ 2
points, lines between consecutive scaled points in the cycling wall color,
plus a closing line when there are more than 2 points; then each portal
segment as a single blue line.  All calls use the same `line_width`. -/
def draw_features_on_image
    (wall_segments : List (List (ℤ × ℤ)))
    (portal_segments : List ((ℤ × ℤ) × (ℤ × ℤ)))
    (original_size resized_size : ℤ × ℤ) : List DrawCmd :=
  let scale_x : ℚ := (original_size.1 : ℚ) / (resized_size.1 : ℚ)
  let scale_y : ℚ := (original_size.2 : ℚ) / (resized_size.2 : ℚ)
  let lw := line_width scale_x scale_y
  (wall_segments.enum.flatMap (fun ip =>
    let idx := ip.1
    let points := ip.2
    if 2 ≤ points.length then
      let color := wall_colors.getD (idx % wall_colors.length) (255, 0, 0)
      let scaled := points.map (scalePoint scale_x scale_y)
      (scaled.zip scaled.tail).map (fun pq =>
        { p1 := pq.1, p2 := pq.2, color := color, width := lw }) ++
      (if 2 < scaled.length then
        [{ p1 := scaled.getLastD (0, 0), p2 := scaled.getD 0 (0, 0),
           color := color, width := lw }]
       else [])
    else [])) ++
  portal_segments.map (fun se =>
    { p1 := scalePoint scale_x scale_y se.1,
      p2 := scalePoint scale_x scale_y se.2,
      color := (0, 0, 255),
      width := lw })

/-- The URL hardcoded over the flow's `image_url` parameter
("Temporary for testing", line 776). -/
def originalFixtureURL : String :=
  "http://localhost:9000/prefect/original-image-c15b5c33-53e3-47ce-9415-d1d4abe8d660"

/-- The canned wall-outline fixture fetched by `outline_impassable_areas`
when `mock` is set (line 176). -/
def wallFixtureURL : String :=
  "http://localhost:9000/prefect/wall-outline-b86c82f9-9289-46a1-898f-2c51687e7653"

/-- The canned portal-highlight fixture fetched by `highlight_portals` when
`mock` is set (line 256). -/
def portalFixtureURL : String :=
  "http://localhost:9000/prefect/portal-highlight-e0a7e4d3-b28f-42c8-a5d0-e73d65e92eb6"

/-- The external collaborators of `detect_features_flow`, abstracted:
`fetch` is blob fetch by URL, `pil_open` decodes bytes to `(width, height)`
(`none` models a PIL decode failure), `pil_resize` is `PIL.Image.resize` on
the bytes, `editImage` is the OpenAI image-edit call (its fixed prompt folded
in), `cv` the OpenCV primitives and `b64encode` the PNG re-encode plus base64
step of `create_uvtt_file`. -/
structure FlowEnv (β γ : Type) where
  fetch : String → List ℕ
  pil_open : List ℕ → Option (ℤ × ℤ)
  pil_resize : List ℕ → ℤ × ℤ → List ℕ
  editImage : List ℕ → List ℕ
  cv : CVPrims β γ
  b64encode : List ℕ → String

/-- `outline_impassable_areas` (lines 114–192): open the artifact image,
fail on a size outside the three supported buckets, then either call the
image-edit service or — with `mock` — fetch the canned wall-outline
fixture. -/
def outline_impassable_areas {β γ : Type} (env : FlowEnv β γ)
    (image_bytes : List ℕ) (mock : Bool) : Except String (List ℕ) :=
  match env.pil_open image_bytes with
  | none => .error "decode"
  | some sz =>
    if sz = (1024, 1024) ∨ sz = (1536, 1024) ∨ sz = (1024, 1536) then
      if mock then .ok (env.fetch wallFixtureURL)
      else .ok (env.editImage image_bytes)
    else .error "Unsupported image size"

/-- `highlight_portals` (lines 195–273): open the image (an unsupported size
only logs a warning and defaults, it does not fail), then either call the
image-edit service or — with `mock` — fetch the canned portal-highlight
fixture. -/
def highlight_portals {β γ : Type} (env : FlowEnv β γ)
    (image_bytes : List ℕ) (mock : Bool) : Except String (List ℕ) :=
  match env.pil_open image_bytes with
  | none => .error "decode"
  | some _ =>
    if mock then .ok (env.fetch portalFixtureURL)
    else .ok (env.editImage image_bytes)

/-- The geometry-relevant result of one `detect_features_flow` run. -/
structure FlowResult where
  uvtt : UVTT
  original_image_bytes : List ℕ
  original_size : ℤ × ℤ
  resized_size : ℤ × ℤ
  wall_segments : List (List (ℤ × ℤ))
  portal_segments : List ((ℤ × ℤ) × (ℤ × ℤ))

/-- `detect_features_flow` (lines 758–960): the `image_url` parameter is
immediately shadowed by the hardcoded fixture URL (line 776); the original
image is fetched from that URL, resized into a bucket, the outline and
portal-highlight steps run with `mock := true` (lines 828, 834), the two
extractors run on the fixture images, and `create_uvtt_file` is called with
the extracted segments as-is plus the original image and size. -/
noncomputable def detect_features_flow {β γ : Type} (env : FlowEnv β γ)
    (image_url : String) (pixels_per_grid : ℤ) :
    Except String FlowResult :=
  let image_url := originalFixtureURL
  let original_image_bytes := env.fetch image_url
  match env.pil_open original_image_bytes with
  | none => .error "decode"
  | some original_size =>
    match resize_image original_size.1 original_size.2 with
    | none => .error "resize"
    | some (_, rw, rh) =>
      let resized_image_bytes := env.pil_resize original_image_bytes (rw, rh)
      let resized_size := (rw, rh)
      match outline_impassable_areas env resized_image_bytes true with
      | .error e => .error e
      | .ok wall_outline_bytes =>
        match highlight_portals env resized_image_bytes true with
        | .error e => .error e
        | .ok portal_highlight_bytes =>
          match detect_wall_segments env.cv wall_outline_bytes with
          | .error e => .error e
          | .ok wall_segments =>
            match detect_portal_segments env.cv portal_highlight_bytes with
            | .error e => .error e
            | .ok portal_segments =>
              .ok { uvtt := create_uvtt_file env.b64encode wall_segments
                      portal_segments original_image_bytes original_size
                      pixels_per_grid,
                    original_image_bytes := original_image_bytes,
                    original_size := original_size,
                    resized_size := resized_size,
                    wall_segments := wall_segments,
                    portal_segments := portal_segments }

/-- A trivial instantiation of the OpenCV primitives (decoding always
succeeds, no contours, no lines), used to evaluate theorems with hypotheses
on a concrete input. -/
def cvUnit : CVPrims Unit Unit where
  imdecode := fun _ => some ()
  cvtColor := fun i => i
  threshold := fun _ _ i => i
  findContours := fun _ => []
  contourArea := fun _ => 0
  arcLength := fun _ => 0
  approxPolyDP := fun _ _ => []
  houghLinesP := fun _ => none

/-- OpenCV primitives for a concrete pipeline run: the wall-outline fixture
decodes and contains one contour of area 100 whose simplification is a
triangle with a vertex at `(1000, 1400)` — coordinates in the 1024×1536
resized image; the portal detector finds no lines. -/
def cvDemo : CVPrims Unit Unit where
  imdecode := fun _ => some ()
  cvtColor := fun i => i
  threshold := fun _ _ i => i
  findContours := fun _ => [()]
  contourArea := fun _ => 100
  arcLength := fun _ => 40
  approxPolyDP := fun _ _ => [(1000, 1400), (1010, 1400), (1010, 1410)]
  houghLinesP := fun _ => none

/-- A concrete flow environment: the original image at the hardcoded fixture
URL is 512×768 (so the portrait 1024×1536 bucket is selected and the resized
image is 1024×1536); detection behaves as `cvDemo`. -/
def envDemo : FlowEnv Unit Unit where
  fetch := fun u => if u = originalFixtureURL then [0] else [1]
  pil_open := fun b => if b = [0] then some (512, 768) else some (1024, 1536)
  pil_resize := fun _ _ => [2]
  editImage := fun b => b
  cv := cvDemo
  b64encode := fun _ => "img"

/-! ## Theorems -/

/-- C3: for every original image size `(w, h)` and positive `pixels_per_grid`,
the assembled UVTT document has `resolution.map_size = (w / ppg, h / ppg)` as
exact (unrounded) quotients, and consequently `map_size.x * ppg = w` and
`map_size.y * ppg = h`. -/
theorem uvtt_map_size_division (enc : List ℕ → String)
    (walls : List (List (ℤ × ℤ))) (segs : List ((ℤ × ℤ) × (ℤ × ℤ)))
    (bytes : List ℕ) (w h ppg : ℤ) (hppg : 0 < ppg) :
    (create_uvtt_file enc walls segs bytes (w, h) ppg).resolution.map_size
        = ((w : ℚ) / (ppg : ℚ), (h : ℚ) / (ppg : ℚ)) ∧
    (create_uvtt_file enc walls segs bytes (w, h) ppg).resolution.map_size.1
        * (ppg : ℚ) = (w : ℚ) ∧
    (create_uvtt_file enc walls segs bytes (w, h) ppg).resolution.map_size.2
        * (ppg : ℚ) = (h : ℚ) := by
  have hq : (ppg : ℚ) ≠ 0 := Int.cast_ne_zero.mpr (ne_of_gt hppg)
  exact ⟨rfl, div_mul_cancel₀ _ hq, div_mul_cancel₀ _ hq⟩

/-- Witness for C3 at `(w, h) = (700, 350)`, `pixels_per_grid = 70`. -/
theorem uvtt_map_size_division_witness :
    (create_uvtt_file (fun _ => "") [] [] []
        ((700 : ℤ), (350 : ℤ)) 70).resolution.map_size
        = (((700 : ℤ) : ℚ) / ((70 : ℤ) : ℚ), ((350 : ℤ) : ℚ) / ((70 : ℤ) : ℚ)) ∧
    (create_uvtt_file (fun _ => "") [] [] []
        ((700 : ℤ), (350 : ℤ)) 70).resolution.map_size.1
        * ((70 : ℤ) : ℚ) = ((700 : ℤ) : ℚ) ∧
    (create_uvtt_file (fun _ => "") [] [] []
        ((700 : ℤ), (350 : ℤ)) 70).resolution.map_size.2
        * ((70 : ℤ) : ℚ) = ((350 : ℤ) : ℚ) :=
  uvtt_map_size_division (fun _ => "") [] [] [] 700 350 70 (by norm_num)

/-- C4: every portal emitted by the UVTT assembler has position the exact
arithmetic midpoint of its endpoints, rotation `arctan2 (dy) (dx)`, bounds
`[start, end]`, and `closed = freestanding = false`; the concrete segment
`(100,100)–(140,100)` yields position `(120, 100)` and rotation `0`. -/
theorem uvtt_portal_fields (enc : List ℕ → String)
    (walls : List (List (ℤ × ℤ))) (segs : List ((ℤ × ℤ) × (ℤ × ℤ)))
    (bytes : List ℕ) (osz : ℤ × ℤ) (ppg : ℤ) :
    (create_uvtt_file enc walls segs bytes osz ppg).portals =
      segs.map (fun se =>
        { position := (((se.1.1 : ℚ) + (se.2.1 : ℚ)) / 2,
                       ((se.1.2 : ℚ) + (se.2.2 : ℚ)) / 2),
          bounds := [se.1, se.2],
          rotation := arctan2 ((se.2.2 - se.1.2 : ℤ) : ℚ)
                        ((se.2.1 - se.1.1 : ℤ) : ℚ),
          closed := false,
          freestanding := false }) ∧
    (create_uvtt_file enc walls [((100, 100), (140, 100))] bytes osz ppg).portals
      = [{ position := ((120 : ℚ), (100 : ℚ)),
           bounds := [((100 : ℤ), (100 : ℤ)), ((140 : ℤ), (100 : ℤ))],
           rotation := 0,
           closed := false,
           freestanding := false }] := by
  constructor
  · rfl
  · simp only [create_uvtt_file, List.map_cons, List.map_nil]
    norm_num [arctan2, Portal.mk.injEq, Prod.mk.injEq, Real.arctan_zero]

/-- C9: wall and portal extraction are deterministic — on equal input bytes
(and the same OpenCV primitives, which are fixed functions) both extractors
return identical output lists. -/
theorem extractors_deterministic {β γ : Type} (cv : CVPrims β γ)
    (b1 b2 : List ℕ) (h : b1 = b2) :
    detect_wall_segments cv b1 = detect_wall_segments cv b2 ∧
    detect_portal_segments cv b1 = detect_portal_segments cv b2 := by
  subst h; exact ⟨rfl, rfl⟩

/-- Witness for C9 on concrete bytes. -/
theorem extractors_deterministic_witness :
    detect_wall_segments cvUnit [1, 2, 3] = detect_wall_segments cvUnit [1, 2, 3] ∧
    detect_portal_segments cvUnit [1, 2, 3] = detect_portal_segments cvUnit [1, 2, 3] :=
  extractors_deterministic cvUnit [1, 2, 3] [1, 2, 3] rfl

/-- C7: when the Hough detector reports no lines, portal extraction returns
the empty list as a successful (`ok`) result, and the UVTT document assembled
from the empty portal list has `portals = []`. -/
theorem portal_detection_empty_ok {β γ : Type} (cv : CVPrims β γ)
    (bytes : List ℕ) (img : β) (enc : List ℕ → String)
    (walls : List (List (ℤ × ℤ))) (obytes : List ℕ) (osz : ℤ × ℤ) (ppg : ℤ)
    (hdec : cv.imdecode bytes = some img)
    (hlines : cv.houghLinesP (cv.threshold 50 255 (cv.cvtColor img)) = none) :
    detect_portal_segments cv bytes = .ok [] ∧
    (create_uvtt_file enc walls [] obytes osz ppg).portals = [] := by
  constructor
  · simp [detect_portal_segments, hdec, hlines]
  · rfl

/-- Witness for C7: an image in which the detector finds no lines. -/
theorem portal_detection_empty_ok_witness :
    detect_portal_segments cvUnit [5] = .ok [] ∧
    (create_uvtt_file (fun _ => "") [] [] [] ((100 : ℤ), (100 : ℤ)) 70).portals
      = [] :=
  portal_detection_empty_ok cvUnit [5] () (fun _ => "") [] []
    ((100 : ℤ), (100 : ℤ)) 70 rfl rfl

/-- C2: the flow's geometric output does not depend on its `image_url`
argument (the parameter is shadowed by a hardcoded fixture URL before use),
nor on the external image-edit service (both outline steps run with
`mock = true`, fetching canned fixtures instead of calling `editImage`). -/
theorem detect_features_flow_ignores_image_url {β γ : Type}
    (env : FlowEnv β γ) (url1 url2 : String) (ppg : ℤ)
    (edit1 edit2 : List ℕ → List ℕ) :
    detect_features_flow env url1 ppg = detect_features_flow env url2 ppg ∧
    detect_features_flow { env with editImage := edit1 } url1 ppg =
      detect_features_flow { env with editImage := edit2 } url1 ppg :=
  ⟨rfl, rfl⟩

/-- C6: every polyline output by `detect_contours` arises from an input
contour whose area is at least the minimum-area constant 30, via the
perimeter-proportional simplification, and has at least 3 vertices; and the
filtering is strict — the output coincides with the output on the list of
contours pre-filtered to area ≥ 30, so a below-threshold contour contributes
nothing. -/
theorem detect_contours_min_area_filter {γ : Type}
    (area arc : γ → ℚ) (approx : γ → ℚ → List (ℤ × ℤ)) (cs : List γ) :
    (∀ poly ∈ detect_contours area arc approx cs,
      ∃ cnt ∈ cs, 30 ≤ area cnt ∧
        poly = approx cnt ((5/1000 : ℚ) * arc cnt) ∧ 3 ≤ poly.length) ∧
    detect_contours area arc approx cs =
      detect_contours area arc approx
        (cs.filter (fun c => decide (30 ≤ area c))) := by
  constructor
  · intro poly hmem
    rw [detect_contours, List.mem_filterMap] at hmem
    obtain ⟨cnt, hc, he⟩ := hmem
    by_cases h1 : area cnt < 30
    · rw [if_pos h1] at he
      exact absurd he (by simp)
    · rw [if_neg h1] at he
      by_cases h2 : 3 ≤ (approx cnt ((5/1000 : ℚ) * arc cnt)).length
      · rw [if_pos h2] at he
        obtain rfl := Option.some_injective _ he
        exact ⟨cnt, hc, not_lt.mp h1, rfl, h2⟩
      · rw [if_neg h2] at he
        exact absurd he (by simp)
  · induction cs with
    | nil => rfl
    | cons a as ih =>
      by_cases h : (30 : ℚ) ≤ area a
      · rw [detect_contours, List.filter_cons_of_pos (by simpa using h)]
        rw [detect_contours] at ih ⊢
        rw [List.filterMap_cons, List.filterMap_cons, ih]
        rfl
      · rw [detect_contours, List.filter_cons_of_neg (by simpa using h)]
        rw [detect_contours] at ih ⊢
        rw [List.filterMap_cons, if_pos (not_le.mp h), ih]
        rfl

/-- Witness for C6: a single triangle contour of area 100. -/
theorem detect_contours_min_area_filter_witness :
    ∃ cnt ∈ ([()] : List Unit), (30 : ℚ) ≤ 100 ∧
      ([((0 : ℤ), (0 : ℤ)), (4, 0), (4, 4)] : List (ℤ × ℤ)) =
        [((0 : ℤ), (0 : ℤ)), (4, 0), (4, 4)] ∧
      3 ≤ ([((0 : ℤ), (0 : ℤ)), (4, 0), (4, 4)] : List (ℤ × ℤ)).length :=
  (detect_contours_min_area_filter (fun _ => 100) (fun _ => 400)
      (fun _ _ => [(0, 0), (4, 0), (4, 4)]) [()]).1
    [(0, 0), (4, 0), (4, 4)] (by decide)

/-- `best_size` unfolded: Python's `min` over the three buckets, first
element winning ties. -/
lemma best_size_eval (a : ℚ) :
    best_size a = some (
      if |(667/1000 : ℚ) - a| <
          |(if |(3/2 : ℚ) - a| < |(1 : ℚ) - a|
            then (⟨"landscape", 1536, 1024, 3/2⟩ : SizeBucket)
            else ⟨"square", 1024, 1024, 1⟩).aspect - a|
      then (⟨"portrait", 1024, 1536, 667/1000⟩ : SizeBucket)
      else if |(3/2 : ℚ) - a| < |(1 : ℚ) - a|
            then ⟨"landscape", 1536, 1024, 3/2⟩
            else ⟨"square", 1024, 1024, 1⟩) := rfl

/-- The selection rule of `best_size`: the returned bucket occurs in
`supported_sizes`, its aspect difference is minimal, and every
earlier-declared bucket has a strictly larger difference. -/
lemma best_size_spec (a : ℚ) :
    ∃ b i, supported_sizes.get? i = some b ∧ best_size a = some b ∧
      (∀ b2 ∈ supported_sizes, |b.aspect - a| ≤ |b2.aspect - a|) ∧
      (∀ j b2, j < i → supported_sizes.get? j = some b2 →
        |b.aspect - a| < |b2.aspect - a|) := by
  by_cases h12 : |(3/2 : ℚ) - a| < |(1 : ℚ) - a|
  · by_cases h23 : |(667/1000 : ℚ) - a| < |(3/2 : ℚ) - a|
    · refine ⟨⟨"portrait", 1024, 1536, 667/1000⟩, 2, rfl, ?_, ?_, ?_⟩
      · rw [best_size_eval, if_pos h12, if_pos (by simpa using h23)]
      · intro b2 hb2
        fin_cases hb2 <;> dsimp <;> [exact (h23.trans h12).le; exact h23.le; exact le_refl _]
      · intro j b2 hj hget
        interval_cases j <;> simp only [supported_sizes, List.get?] at hget <;>
          obtain rfl := Option.some_injective _ hget <;> dsimp
        · exact h23.trans h12
        · exact h23
    · refine ⟨⟨"landscape", 1536, 1024, 3/2⟩, 1, rfl, ?_, ?_, ?_⟩
      · rw [best_size_eval, if_pos h12, if_neg (by simpa using h23)]
      · intro b2 hb2
        fin_cases hb2 <;> dsimp <;>
          [exact h12.le; exact le_refl _; exact not_lt.mp h23]
      · intro j b2 hj hget
        interval_cases j
        simp only [supported_sizes, List.get?] at hget
        obtain rfl := Option.some_injective _ hget
        exact h12
  · by_cases h23 : |(667/1000 : ℚ) - a| < |(1 : ℚ) - a|
    · refine ⟨⟨"portrait", 1024, 1536, 667/1000⟩, 2, rfl, ?_, ?_, ?_⟩
      · rw [best_size_eval, if_neg h12, if_pos (by simpa using h23)]
      · intro b2 hb2
        fin_cases hb2 <;> dsimp <;>
          [exact h23.le; exact h23.le.trans (not_lt.mp h12); exact le_refl _]
      · intro j b2 hj hget
        interval_cases j <;> simp only [supported_sizes, List.get?] at hget <;>
          obtain rfl := Option.some_injective _ hget <;> dsimp
        · exact h23
        · exact h23.trans_le (not_lt.mp h12)
    · refine ⟨⟨"square", 1024, 1024, 1⟩, 0, rfl, ?_, ?_, ?_⟩
      · rw [best_size_eval, if_neg h12, if_neg (by simpa using h23)]
      · intro b2 hb2
        fin_cases hb2 <;> dsimp <;>
          [exact le_refl _; exact not_lt.mp h12; exact not_lt.mp h23]
      · intro j b2 hj hget
        exact absurd hj (Nat.not_lt_zero j)

/-- C5: for every original size, `resize_image` selects the bucket whose
aspect constant is closest to the source aspect `w / h`, ties broken in
declaration order (square, landscape, portrait), and the output dimensions
are exactly the chosen bucket's; a 512×768 input selects the portrait bucket
1024×1536, with scale factors `(2, 2)`. -/
theorem resize_bucket_selection :
    (∀ w h : ℤ,
      ∃ b i, supported_sizes.get? i = some b ∧
        resize_image w h = some (b, b.width, b.height) ∧
        (∀ b2 ∈ supported_sizes,
          |b.aspect - (w : ℚ) / (h : ℚ)| ≤ |b2.aspect - (w : ℚ) / (h : ℚ)|) ∧
        (∀ j b2, j < i → supported_sizes.get? j = some b2 →
          |b.aspect - (w : ℚ) / (h : ℚ)| < |b2.aspect - (w : ℚ) / (h : ℚ)|)) ∧
    resize_image 512 768 =
      some (⟨"portrait", 1024, 1536, 667/1000⟩, 1024, 1536) ∧
    ((1024 : ℚ) / 512 = 2 ∧ (1536 : ℚ) / 768 = 2) := by
  refine ⟨?_, ?_, by norm_num⟩
  · intro w h
    obtain ⟨b, i, hg, hbs, hmin, hstrict⟩ := best_size_spec ((w : ℚ) / (h : ℚ))
    exact ⟨b, i, hg, by simp [resize_image, hbs], hmin, hstrict⟩
  · simp only [resize_image, best_size_eval, Option.map_some]
    norm_num [abs_of_nonneg]

/-- Witness for C5 at the 512×768 input. -/
theorem resize_bucket_selection_witness :
    ∃ b i, supported_sizes.get? i = some b ∧
      resize_image 512 768 = some (b, b.width, b.height) ∧
      (∀ b2 ∈ supported_sizes,
        |b.aspect - ((512 : ℤ) : ℚ) / ((768 : ℤ) : ℚ)|
          ≤ |b2.aspect - ((512 : ℤ) : ℚ) / ((768 : ℤ) : ℚ)|) ∧
      (∀ j b2, j < i → supported_sizes.get? j = some b2 →
        |b.aspect - ((512 : ℤ) : ℚ) / ((768 : ℤ) : ℚ)|
          < |b2.aspect - ((512 : ℤ) : ℚ) / ((768 : ℤ) : ℚ)|) :=
  resize_bucket_selection.1 512 768

/-- C10: every line drawn by the overlay renderer — wall polyline edges,
closing edges, and portal segments alike — uses the width
`max 2 (pyInt (2 * min scale_x scale_y))`; that width is never below 2 and
depends only on the smaller of the two scale factors. -/
theorem draw_line_width_uniform :
    (∀ (walls : List (List (ℤ × ℤ))) (portals : List ((ℤ × ℤ) × (ℤ × ℤ)))
        (osz rsz : ℤ × ℤ),
      ∀ cmd ∈ draw_features_on_image walls portals osz rsz,
        cmd.width = max 2 (pyInt (2 * min ((osz.1 : ℚ) / (rsz.1 : ℚ))
          ((osz.2 : ℚ) / (rsz.2 : ℚ))))) ∧
    (∀ sx sy : ℚ, 2 ≤ line_width sx sy) ∧
    (∀ sx sy sx2 sy2 : ℚ, min sx sy = min sx2 sy2 →
      line_width sx sy = line_width sx2 sy2) := by
  refine ⟨?_, fun sx sy => le_max_left 2 _, ?_⟩
  · intro walls portals osz rsz cmd hmem
    rw [draw_features_on_image] at hmem
    rcases List.mem_append.mp hmem with hw | hp
    · obtain ⟨ip, _, hcmd⟩ := List.mem_flatMap.mp hw
      by_cases hlen : 2 ≤ ip.2.length
      · rw [if_pos hlen] at hcmd
        rcases List.mem_append.mp hcmd with h1 | h2
        · obtain ⟨pq, _, rfl⟩ := List.mem_map.mp h1
          rfl
        · by_cases h3 : 2 < (ip.2.map (scalePoint ((osz.1 : ℚ) / (rsz.1 : ℚ))
              ((osz.2 : ℚ) / (rsz.2 : ℚ)))).length
          · rw [if_pos h3] at h2
            obtain rfl := List.mem_singleton.mp h2
            rfl
          · rw [if_neg h3] at h2
            exact absurd h2 (List.not_mem_nil cmd)
      · rw [if_neg hlen] at hcmd
        exact absurd hcmd (List.not_mem_nil cmd)
    · obtain ⟨se, _, rfl⟩ := List.mem_map.mp hp
      rfl
  · intro sx sy sx2 sy2 hmin
    rw [line_width, line_width, hmin]

/-- Witness for C10: the single blue portal line drawn at unit scale. -/
theorem draw_line_width_uniform_witness :
    ({ p1 := ((0 : ℤ), (0 : ℤ)), p2 := ((4 : ℤ), (0 : ℤ)),
       color := ((0 : ℕ), (0 : ℕ), (255 : ℕ)), width := (2 : ℤ) } : DrawCmd).width
      = max 2 (pyInt (2 * min (((10 : ℤ) : ℚ) / ((10 : ℤ) : ℚ))
          (((10 : ℤ) : ℚ) / ((10 : ℤ) : ℚ)))) ∧
    (2 : ℤ) ≤ line_width (1/2) (1/3) ∧
    line_width 1 2 = line_width 1 3 :=
  ⟨draw_line_width_uniform.1 [] [((0, 0), (4, 0))] (10, 10) (10, 10)
      { p1 := (0, 0), p2 := (4, 0), color := (0, 0, 255), width := 2 }
      (by
        rw [draw_features_on_image]
        have hs : scalePoint 1 1 ((0 : ℤ), (0 : ℤ)) = (0, 0) := by
          simp [scalePoint, pyInt]
        have hs0 : scalePoint 1 1 (0 : ℤ × ℤ) = 0 := by
          simp [scalePoint, pyInt, Prod.ext_iff]
        have hs2 : scalePoint 1 1 ((4 : ℤ), (0 : ℤ)) = (4, 0) := by
          simp [scalePoint, pyInt]
        have hw1 : line_width 1 1 = 2 := by
          rw [line_width]
          norm_num [pyInt, Int.floor_eq_iff]
        simp [hs, hs0, hs2, hw1]),
    draw_line_width_uniform.2.1 (1/2) (1/3),
    draw_line_width_uniform.2.2 1 2 1 3 (by norm_num)⟩

/-- On nonnegative input, Python truncation agrees with the floor. -/
lemma pyInt_of_nonneg {q : ℚ} (h : 0 ≤ q) : pyInt q = ⌊q⌋ := if_pos h

/-- One coordinate of the original→resized→original round trip: when the
resized dimension `n` is at least the original dimension `d` (upscaling), the
doubly truncated value comes back within one pixel below the input. -/
lemma roundtrip_coord (n d x : ℤ) (hd : 0 < d) (hdn : d ≤ n) (hx : 0 ≤ x) :
    x - 1 ≤ pyInt ((pyInt ((x : ℚ) * ((n : ℚ) / (d : ℚ))) : ℚ) * ((d : ℚ) / (n : ℚ))) ∧
    pyInt ((pyInt ((x : ℚ) * ((n : ℚ) / (d : ℚ))) : ℚ) * ((d : ℚ) / (n : ℚ))) ≤ x := by
  have hn : (0 : ℤ) < n := lt_of_lt_of_le hd hdn
  have hdq : (0 : ℚ) < (d : ℚ) := by exact_mod_cast hd
  have hnq : (0 : ℚ) < (n : ℚ) := by exact_mod_cast hn
  have hxq : (0 : ℚ) ≤ (x : ℚ) := by exact_mod_cast hx
  have hs : (0 : ℚ) < (n : ℚ) / (d : ℚ) := div_pos hnq hdq
  have ht : (0 : ℚ) < (d : ℚ) / (n : ℚ) := div_pos hdq hnq
  have hfwd0 : 0 ≤ (x : ℚ) * ((n : ℚ) / (d : ℚ)) := mul_nonneg hxq hs.le
  rw [pyInt_of_nonneg hfwd0]
  set k : ℤ := ⌊(x : ℚ) * ((n : ℚ) / (d : ℚ))⌋ with hk
  have hk0 : (0 : ℤ) ≤ k := Int.le_floor.mpr (by simpa using hfwd0)
  have hkq : (0 : ℚ) ≤ (k : ℚ) := by exact_mod_cast hk0
  have hback0 : 0 ≤ (k : ℚ) * ((d : ℚ) / (n : ℚ)) := mul_nonneg hkq ht.le
  rw [pyInt_of_nonneg hback0]
  have hcancel : ((n : ℚ) / (d : ℚ)) * ((d : ℚ) / (n : ℚ)) = 1 := by
    field_simp
  constructor
  · rw [Int.le_floor]
    have h3 : (x : ℚ) * ((n : ℚ) / (d : ℚ)) - 1 < (k : ℚ) := Int.sub_one_lt_floor _
    have h4 : ((x : ℚ) * ((n : ℚ) / (d : ℚ)) - 1) * ((d : ℚ) / (n : ℚ))
        < (k : ℚ) * ((d : ℚ) / (n : ℚ)) := mul_lt_mul_of_pos_right h3 ht
    have h5 : ((x : ℚ) * ((n : ℚ) / (d : ℚ)) - 1) * ((d : ℚ) / (n : ℚ))
        = (x : ℚ) - (d : ℚ) / (n : ℚ) := by
      rw [sub_mul, mul_assoc, hcancel, mul_one, one_mul]
    have h6 : (d : ℚ) / (n : ℚ) ≤ 1 := by
      rw [div_le_one hnq]; exact_mod_cast hdn
    push_cast
    linarith
  · have h1 : (k : ℚ) ≤ (x : ℚ) * ((n : ℚ) / (d : ℚ)) := Int.floor_le _
    have h2 : (k : ℚ) * ((d : ℚ) / (n : ℚ)) ≤ (x : ℚ) := by
      have h7 := mul_le_mul_of_nonneg_right h1 ht.le
      rw [mul_assoc, hcancel, mul_one] at h7
      exact h7
    calc ⌊(k : ℚ) * ((d : ℚ) / (n : ℚ))⌋ ≤ ⌊((x : ℤ) : ℚ)⌋ := Int.floor_le_floor h2
      _ = x := Int.floor_intCast x

/-- C8 fails as stated: with a 2049-pixel-wide original and the square bucket
(width 1024, a downscale), the in-range point `(2, 2)` maps to `(0, 0)` in
resized space and back to `(0, 0)`, which is 2 pixels away from the
original — outside ±1. -/
theorem roundtrip_counterexample :
    (⟨"square", 1024, 1024, 1⟩ : SizeBucket) ∈ supported_sizes ∧
    (0 : ℤ) ≤ 2 ∧ (2 : ℤ) < 2049 ∧
    scalePoint (((1024 : ℤ) : ℚ) / ((2049 : ℤ) : ℚ))
        (((1024 : ℤ) : ℚ) / ((2049 : ℤ) : ℚ)) (2, 2) = (0, 0) ∧
    scalePoint (((2049 : ℤ) : ℚ) / ((1024 : ℤ) : ℚ))
        (((2049 : ℤ) : ℚ) / ((1024 : ℤ) : ℚ)) (0, 0) = (0, 0) ∧
    ¬ (|(0 : ℤ) - 2| ≤ 1) := by
  refine ⟨by simp [supported_sizes], by norm_num, by norm_num, ?_, ?_, by norm_num⟩
  · rw [scalePoint]
    norm_num [pyInt_of_nonneg, Int.floor_eq_iff, Prod.ext_iff]
  · rw [scalePoint]
    norm_num [pyInt_of_nonneg, Int.floor_eq_iff, Prod.ext_iff]

/-- C8 amended: the ±1 round-trip guarantee holds for the upscaling case —
whenever each original dimension is at most the chosen bucket's dimension
(per-axis scale factors ≥ 1), which covers every original image no larger
than its bucket; for a downscale the truncation error can exceed one pixel
(see the counterexample). -/
theorem roundtrip_within_one_upscale (b : SizeBucket) (hb : b ∈ supported_sizes)
    (w h x y : ℤ) (hw : 0 < w) (hh : 0 < h)
    (hwb : w ≤ b.width) (hhb : h ≤ b.height)
    (hx0 : 0 ≤ x) (hxw : x < w) (hy0 : 0 ≤ y) (hyh : y < h) :
    |(scalePoint ((w : ℚ) / (b.width : ℚ)) ((h : ℚ) / (b.height : ℚ))
        (scalePoint ((b.width : ℚ) / (w : ℚ)) ((b.height : ℚ) / (h : ℚ))
          (x, y))).1 - x| ≤ 1 ∧
    |(scalePoint ((w : ℚ) / (b.width : ℚ)) ((h : ℚ) / (b.height : ℚ))
        (scalePoint ((b.width : ℚ) / (w : ℚ)) ((b.height : ℚ) / (h : ℚ))
          (x, y))).2 - y| ≤ 1 := by
  have h1 := roundtrip_coord b.width w x hw hwb hx0
  have h2 := roundtrip_coord b.height h y hh hhb hy0
  simp only [scalePoint]
  constructor
  · rw [abs_le]
    exact ⟨by linarith [h1.1], by linarith [h1.2]⟩
  · rw [abs_le]
    exact ⟨by linarith [h2.1], by linarith [h2.2]⟩

/-- Witness for the amended C8: a 512×512 original into the square bucket,
point `(100, 100)`. -/
theorem roundtrip_within_one_upscale_witness :
    |(scalePoint (((512 : ℤ) : ℚ) / ((1024 : ℤ) : ℚ))
        (((512 : ℤ) : ℚ) / ((1024 : ℤ) : ℚ))
        (scalePoint (((1024 : ℤ) : ℚ) / ((512 : ℤ) : ℚ))
          (((1024 : ℤ) : ℚ) / ((512 : ℤ) : ℚ)) (100, 100))).1 - 100| ≤ 1 ∧
    |(scalePoint (((512 : ℤ) : ℚ) / ((1024 : ℤ) : ℚ))
        (((512 : ℤ) : ℚ) / ((1024 : ℤ) : ℚ))
        (scalePoint (((1024 : ℤ) : ℚ) / ((512 : ℤ) : ℚ))
          (((1024 : ℤ) : ℚ) / ((512 : ℤ) : ℚ)) (100, 100))).2 - 100| ≤ 1 :=
  roundtrip_within_one_upscale ⟨"square", 1024, 1024, 1⟩ (by decide)
    512 512 100 100 (by decide) (by decide) (by decide) (by decide)
    (by decide) (by decide) (by decide) (by decide)

/-- Concrete bucket selection: a 512×768 original picks the portrait bucket. -/
lemma resize_image_512_768 :
    resize_image 512 768 =
      some (⟨"portrait", 1024, 1536, 667/1000⟩, 1024, 1536) := by
  simp only [resize_image, best_size_eval, Option.map_some]
  norm_num [abs_of_nonneg]

lemma envDemo_fetch_original : envDemo.fetch originalFixtureURL = [0] := rfl

lemma envDemo_open0 : envDemo.pil_open [0] = some (512, 768) := rfl

lemma envDemo_resize_bytes : envDemo.pil_resize [0] (1024, 1536) = [2] := rfl

lemma envDemo_outline : outline_impassable_areas envDemo [2] true = .ok [1] := rfl

lemma envDemo_highlight : highlight_portals envDemo [2] true = .ok [1] := rfl

lemma envDemo_walls : detect_wall_segments envDemo.cv [1]
    = .ok [[(1000, 1400), (1010, 1400), (1010, 1410)]] := rfl

lemma envDemo_portals : detect_portal_segments envDemo.cv [1] = .ok [] := rfl

/-- C1 fails on the code: in a pipeline run whose original image is 512×768
(resized to the portrait 1024×1536 bucket) and whose wall detection finds a
contour with vertex `(1000, 1400)` in resized-image space, the UVTT document
emits that vertex unchanged — `x = 1000` does not even fit in the original
512-pixel-wide image, and the properly rescaled point would be `(500, 700)`.
The segments are never rescaled between detection and `create_uvtt_file`. -/
theorem uvtt_line_of_sight_not_rescaled :
    ∃ r, detect_features_flow envDemo "http://example.com/user-map.png" 70
        = Except.ok r ∧
      r.original_size = (512, 768) ∧
      r.resized_size = (1024, 1536) ∧
      r.uvtt.line_of_sight = [[(1000, 1400), (1010, 1400), (1010, 1410)]] ∧
      ¬ ((1000 : ℤ) < 512) ∧
      scalePoint (((512 : ℤ) : ℚ) / ((1024 : ℤ) : ℚ))
        (((768 : ℤ) : ℚ) / ((1536 : ℤ) : ℚ)) (1000, 1400) = (500, 700) := by
  have hflow : detect_features_flow envDemo "http://example.com/user-map.png" 70
      = Except.ok
        { uvtt := create_uvtt_file envDemo.b64encode
            [[(1000, 1400), (1010, 1400), (1010, 1410)]] [] [0] (512, 768) 70,
          original_image_bytes := [0],
          original_size := (512, 768),
          resized_size := (1024, 1536),
          wall_segments := [[(1000, 1400), (1010, 1400), (1010, 1410)]],
          portal_segments := [] } := by
    simp only [detect_features_flow, envDemo_fetch_original, envDemo_open0,
      resize_image_512_768, envDemo_resize_bytes, envDemo_outline,
      envDemo_highlight, envDemo_walls, envDemo_portals]
  refine ⟨_, hflow, rfl, rfl, rfl, by decide, ?_⟩
  rw [scalePoint]
  norm_num [pyInt_of_nonneg, Int.floor_eq_iff, Prod.ext_iff]

end FeatureDetection
